import Mathlib

/-!
Verification of the Smart-E-Buggy tracker (`main.py`).

The development shallowly embeds the core of `main.py`:

* the geofence containment test `inside_geofence` and the first-match zone
  resolution loop at the top of `detect_trip_and_record`;
* the per-device trip-detection state machine `detect_trip_and_record`
  (Python dict `device_state` entries become the `DevState` record, the
  function returns the updated state together with the trip it persists,
  if any);
* the `/api/devices/latest` query (sort by timestamp descending, keep the
  first row seen per device);
* the `/api/trips/summary` query (group trips by calendar day of
  `start_time`, sum counts and distances, convert to km and CO2);
* the `/api/location` ingestion handler with Python truthiness semantics
  for the `or`-chained field aliases (`PyVal`, `pyOr`).

Numbers are modelled as rationals.  The third-party `haversine` library
function is not part of the repository, so every definition that calls it
takes an abstract distance function `d : Point → Point → ℚ` as a
parameter; likewise the Python builtin `float` applied to strings is
abstracted as `fp : String → Option ℚ` (`none` meaning `float` raises),
and `dateutil`-based timestamp parsing as `parseTs : PyVal → ℚ`
(`parse_iso` never raises: it falls back to "now" on error).
-/

namespace EBuggy

/-- A latitude/longitude pair, as the Python code passes `(lat, lon)` tuples. -/
abbrev Point := ℚ × ℚ

/-- A configured geofence: center and radius in meters (`GEOfences` values). -/
structure Fence where
  lat : ℚ
  lon : ℚ
  radius_m : ℚ
deriving Repr, DecidableEq

/-- Zone "A": center (12.9710, 77.5946), radius 80 m. -/
def fenceA : Fence := ⟨12971/1000, 387973/5000, 80⟩

/-- Zone "B": center (12.9720, 77.5956), radius 80 m. -/
def fenceB : Fence := ⟨3243/250, 193989/2500, 80⟩

/-- The `GEOfences` dict, in Python dict insertion order: "A" before "B". -/
def GEOfences : List (String × Fence) := [("A", fenceA), ("B", fenceB)]

/-- `inside_geofence(lat, lon, fence)`: distance to the center is at most the
radius (the comparison is `d <= fence["radius_m"]`, boundary inclusive).
`d` abstracts the external `haversine(..., unit=Unit.METERS)` call. -/
def inside_geofence (d : Point → Point → ℚ) (lat lon : ℚ) (fence : Fence) : Bool :=
  decide (d (lat, lon) (fence.lat, fence.lon) ≤ fence.radius_m)

/-- The `for zone_name, fence in GEOfences.items(): ... break` loop of
`detect_trip_and_record`: first fence containing the point wins. -/
def firstZone (d : Point → Point → ℚ) (lat lon : ℚ) :
    List (String × Fence) → Option String
  | [] => none
  | zf :: rest =>
      if inside_geofence d lat lon zf.2 then some zf.1 else firstZone d lat lon rest

/-- `currentZone` as computed by `detect_trip_and_record` over `GEOfences`. -/
def resolveZone (d : Point → Point → ℚ) (lat lon : ℚ) : Option String :=
  firstZone d lat lon GEOfences

/-- One entry of the in-memory `device_state` dict:
`{"lastZone": ..., "enter_time": ..., "enter_pos": ...}`. -/
structure DevState where
  lastZone : Option String
  enter_time : Option ℚ
  enter_pos : Option Point
deriving Repr, DecidableEq

/-- The default entry `{"lastZone": None, "enter_time": None, "enter_pos": None}`. -/
def initState : DevState := ⟨none, none, none⟩

/-- A `Trip` row as built by `detect_trip_and_record`.  Timestamps are
rationals (seconds); `duration_s = (ts - enter_time).total_seconds()`. -/
structure Trip where
  device_id : String
  start_time : ℚ
  end_time : ℚ
  start_lat : ℚ
  start_lon : ℚ
  end_lat : ℚ
  end_lon : ℚ
  distance_m : ℚ
  duration_s : ℚ
deriving Repr, DecidableEq

abbrev MIN_TRIP_TIME_S : ℚ := 30
abbrev MIN_TRIP_DISTANCE_M : ℚ := 20

/-- `detect_trip_and_record(device_id, lat, lon, ts)` for one device: takes
the device's state entry and returns the updated entry together with the
trip committed to the database, if any.  The emission test mirrors the
Python guard `if duration and distance_m and duration >= MIN_TRIP_TIME_S
and distance_m >= MIN_TRIP_DISTANCE_M`: a `None` or zero duration/distance
is falsy, so it also blocks emission. -/
def detect_trip_and_record (d : Point → Point → ℚ) (device_id : String)
    (state : DevState) (lat lon ts : ℚ) : DevState × Option Trip :=
  let currentZone := resolveZone d lat lon
  if state.lastZone = none ∧ currentZone ≠ none then
    (⟨currentZone, some ts, some (lat, lon)⟩, none)
  else if state.lastZone = currentZone then
    (state, none)
  else if state.lastZone ≠ none ∧ currentZone ≠ none ∧ state.lastZone ≠ currentZone then
    let trip : Option Trip :=
      match state.enter_time, state.enter_pos with
      | some et, some ep =>
        let du := ts - et
        let dm := d ep (lat, lon)
        if du ≠ 0 ∧ dm ≠ 0 ∧ MIN_TRIP_TIME_S ≤ du ∧ MIN_TRIP_DISTANCE_M ≤ dm then
          some ⟨device_id, et, ts, ep.1, ep.2, lat, lon, dm, du⟩
        else none
      | _, _ => none
    (⟨currentZone, some ts, some (lat, lon)⟩, trip)
  else
    if currentZone = none then (⟨none, none, none⟩, none) else (state, none)

/-- Run the detector over a list of `(lat, lon, ts)` samples for one device,
starting from the absent-key default state. -/
def runDetect (d : Point → Point → ℚ) (device_id : String)
    (samples : List (ℚ × ℚ × ℚ)) : DevState :=
  samples.foldl
    (fun s p => (detect_trip_and_record d device_id s p.1 p.2.1 p.2.2).1)
    initState

/-- The spec's `DeviceTripState` invariant: entry time and entry position are
both set or both null, and set exactly when the last zone is non-null. -/
def stateInv (s : DevState) : Prop :=
  s.enter_time.isSome = s.enter_pos.isSome ∧ s.enter_time.isSome = s.lastZone.isSome

instance (s : DevState) : Decidable (stateInv s) := by
  unfold stateInv; infer_instance

/-- A `Location` row (`device_id`, coordinates, speed, timestamp). -/
structure Location where
  device_id : String
  lat : ℚ
  lon : ℚ
  speed_kmh : ℚ
  timestamp : ℚ
deriving Repr, DecidableEq

/-- The `order_by(Location.timestamp.desc())` ordering on rows. -/
def tsDesc (a b : Location) : Prop := b.timestamp ≤ a.timestamp

instance : DecidableRel tsDesc := fun a b => by unfold tsDesc; infer_instance

instance : IsTotal Location tsDesc := ⟨fun a b => le_total b.timestamp a.timestamp⟩

instance : IsTrans Location tsDesc :=
  ⟨fun _ _ _ h1 h2 => le_trans h2 h1⟩

/-- The `latest` dict build of `api_devices_latest`: walk the rows in query
order and keep only the first row seen for each `device_id` (the `seen`
accumulator is the dict's key set). -/
def latestLoop (seen : List String) : List Location → List Location
  | [] => []
  | x :: xs =>
      if x.device_id ∈ seen then latestLoop seen xs
      else x :: latestLoop (x.device_id :: seen) xs

/-- `/api/devices/latest`: all stored rows ordered by timestamp descending,
then one entry per device (first occurrence wins). -/
def api_devices_latest (rows : List Location) : List Location :=
  latestLoop [] (List.insertionSort tsDesc rows)

/-- `func.date(Trip.start_time)`: the UTC calendar day of a timestamp given
in seconds, as a day index. -/
def dayOf (t : Trip) : ℤ := ⌊t.start_time / 86400⌋

/-- The grouped query of `api_trips_summary`: one row `(day, count,
sum of distance_m)` per distinct day of `start_time`, ascending by day. -/
def tripsGroupedByDay (trips : List Trip) : List (ℤ × ℕ × ℚ) :=
  (List.insertionSort (· ≤ ·) (trips.map dayOf).dedup).map fun day =>
    (day, (trips.filter fun t => dayOf t = day).length,
     ((trips.filter fun t => dayOf t = day).map Trip.distance_m).sum)

abbrev EMISSION_FACTOR_KG_PER_KM : ℚ := 20/100

/-- The totals computed by `api_trips_summary`'s accumulation loop. -/
structure Summary where
  total_trips : ℕ
  total_km : ℚ
  co2_saved_kg : ℚ
deriving Repr, DecidableEq

/-- `/api/trips/summary`: fold the grouped rows into totals, convert meters
to km, multiply by the emission factor.  Pure: reads `trips`, writes
nothing. -/
def api_trips_summary (trips : List Trip) : Summary :=
  let rows := tripsGroupedByDay trips
  let total_trips := (rows.map fun r => r.2.1).sum
  let total_m := (rows.map fun r => r.2.2).sum
  let total_km := total_m / 1000
  ⟨total_trips, total_km, total_km * EMISSION_FACTOR_KG_PER_KM⟩

/-- A JSON/form payload value as the handler sees it: a number, a string, or
`None` (also what `dict.get` returns for a missing key). -/
inductive PyVal where
  | num (q : ℚ)
  | str (s : String)
  | null
deriving Repr, DecidableEq

/-- Python truthiness: `0` and `""` and `None` are falsy. -/
def PyVal.truthy : PyVal → Bool
  | .num q => decide (q ≠ 0)
  | .str s => decide (s ≠ "")
  | .null => false

/-- Python `a or b`. -/
def pyOr (a b : PyVal) : PyVal := if a.truthy then a else b

/-- Python `float(v)`: numbers pass through, strings go to the external
parser `fp` (`none` = `float` raises), `float(None)` raises. -/
def pyFloat (fp : String → Option ℚ) : PyVal → Option ℚ
  | .num q => some q
  | .str s => fp s
  | .null => none

/-- `data.get(k)` over the request payload: `None` when the key is absent. -/
def dictGet (data : List (String × PyVal)) (k : String) : PyVal :=
  ((data.find? fun kv => kv.1 == k).map Prod.snd).getD .null

/-- Outcome of one `/api/location` request.  The device and location rows
are written only on the `ok` path: `authError` and `validationError` return
before any write, and `exception` is the uncaught error raised by
`float(...)` on the speed line, which precedes every database access. -/
inductive IngestResult where
  | authError
  | validationError
  | exception
  | ok (device : PyVal) (lat lon speed ts : ℚ)
deriving Repr, DecidableEq

/-- The `/api/location` handler.  `fp` abstracts `float` on strings,
`parseTs` the `parse_iso` helper (total: it falls back internally), `now`
the current UTC time, `apiKeyCfg` the configured `API_KEY`, `headerKey` the
`X-API-KEY` header.  Field lookups follow the Python `or`-chains exactly. -/
def api_location (fp : String → Option ℚ) (parseTs : PyVal → ℚ) (now : ℚ)
    (apiKeyCfg : String) (headerKey : Option String)
    (data : List (String × PyVal)) : IngestResult :=
  let get := dictGet data
  let device_id := pyOr (pyOr (get "device_id") (get "deviceId")) (get "device")
  let api_key := pyOr (get "api_key") (headerKey.elim PyVal.null PyVal.str)
  if apiKeyCfg ≠ "" ∧ api_key ≠ PyVal.str apiKeyCfg then .authError
  else
    match pyFloat fp (pyOr (get "lat") (get "latitude")),
          pyFloat fp (pyOr (get "lon") (get "longitude")) with
    | some lat, some lon =>
        match pyFloat fp (pyOr (pyOr (get "speed_kmh") (get "speed")) (.num 0)) with
        | some speed =>
            let tsv := pyOr (get "timestamp") (get "time")
            let ts := if tsv.truthy then parseTs tsv else now
            .ok device_id lat lon speed ts
        | none => .exception
    | _, _ => .validationError

/-! ## Helper lemmas -/

theorem firstZone_eq_find (d : Point → Point → ℚ) (lat lon : ℚ) :
    ∀ l : List (String × Fence),
      firstZone d lat lon l
        = (l.find? fun zf => inside_geofence d lat lon zf.2).map Prod.fst
  | [] => rfl
  | zf :: rest => by
      by_cases h : inside_geofence d lat lon zf.2 = true
      · simp [firstZone, h, List.find?_cons_of_pos]
      · rw [Bool.not_eq_true] at h
        simp [firstZone, h, List.find?_cons_of_neg,
          firstZone_eq_find d lat lon rest]

theorem stateInv_init : stateInv initState := by decide

theorem stateInv_step (d : Point → Point → ℚ) (dev : String) (s : DevState)
    (lat lon ts : ℚ) (h : stateInv s) :
    stateInv (detect_trip_and_record d dev s lat lon ts).1 := by
  cases hc : resolveZone d lat lon with
  | none =>
      by_cases hl : s.lastZone = none
      · simp [detect_trip_and_record, hc, hl, h]
      · simp [detect_trip_and_record, hc, hl, stateInv]
  | some z =>
      by_cases hl : s.lastZone = none
      · simp [detect_trip_and_record, hc, hl, stateInv]
      · by_cases he : s.lastZone = some z
        · simp [detect_trip_and_record, hc, hl, he, h]
        · simp [detect_trip_and_record, hc, hl, he, stateInv]

theorem stateInv_foldl (d : Point → Point → ℚ) (dev : String) :
    ∀ (samples : List (ℚ × ℚ × ℚ)) (s : DevState), stateInv s →
      stateInv (samples.foldl
        (fun s p => (detect_trip_and_record d dev s p.1 p.2.1 p.2.2).1) s)
  | [], _, h => h
  | p :: rest, s, h =>
      stateInv_foldl d dev rest _ (stateInv_step d dev s p.1 p.2.1 p.2.2 h)

/-! ## Claim theorems: geofences and the state machine -/

/-- Claim C8: the containment test accepts a point exactly when its distance
to the fence center is at most the radius, and a point at exactly the
radius distance is inside (boundary inclusive). -/
theorem inside_geofence_boundary (d : Point → Point → ℚ) (lat lon : ℚ)
    (fence : Fence) :
    (inside_geofence d lat lon fence = true
      ↔ d (lat, lon) (fence.lat, fence.lon) ≤ fence.radius_m)
    ∧ (d (lat, lon) (fence.lat, fence.lon) = fence.radius_m →
        inside_geofence d lat lon fence = true) := by
  constructor
  · simp [inside_geofence]
  · intro h
    simp [inside_geofence, h]

/-- Witness for C8 at a concrete distance function sitting exactly on the
boundary of zone "A". -/
theorem inside_geofence_boundary_witness :
    inside_geofence (fun _ _ => 80) 0 0 fenceA = true :=
  (inside_geofence_boundary (fun _ _ => 80) 0 0 fenceA).2 rfl

/-- Claim C9: zone resolution scans `GEOfences` in declared order and
returns the first containing fence's name; it is `none` exactly when no
configured fence contains the point; and a point inside fence "A" resolves
to "A" no matter what fence "B" says (declaration order wins). -/
theorem resolveZone_first_match (d : Point → Point → ℚ) (lat lon : ℚ) :
    resolveZone d lat lon
        = (GEOfences.find? fun zf => inside_geofence d lat lon zf.2).map Prod.fst
    ∧ (resolveZone d lat lon = none
        ↔ ∀ zf ∈ GEOfences, inside_geofence d lat lon zf.2 = false)
    ∧ (inside_geofence d lat lon fenceA = true →
        resolveZone d lat lon = some "A") := by
  refine ⟨firstZone_eq_find d lat lon GEOfences, ?_, ?_⟩
  · rw [resolveZone, firstZone_eq_find d lat lon GEOfences]
    simp [List.find?_eq_none]
  · intro h
    simp [resolveZone, GEOfences, firstZone, h]

/-- Witness for C9: with a distance function that always returns 0, every
fence contains every point, and declaration order makes "A" win. -/
theorem resolveZone_first_match_witness :
    resolveZone (fun _ _ => 0) 0 0 = some "A" :=
  (resolveZone_first_match (fun _ _ => 0) 0 0).2.2 (by decide)

/-- Claim C1: from `IN_ZONE(Z, et, ep)`, a sample resolving to a different
zone `Zp` moves the state to `IN_ZONE(Zp, ts, (lat, lon))` in every case,
and commits exactly one trip — with start `et`/`ep`, end `ts`/`(lat,lon)`,
duration `ts - et`, distance `d ep (lat, lon)` — precisely when the
duration is at least 30 s and the distance at least 20 m. -/
theorem trip_on_zone_transition (d : Point → Point → ℚ) (dev Z Zp : String)
    (et : ℚ) (ep : Point) (lat lon ts : ℚ)
    (hz : resolveZone d lat lon = some Zp) (hne : Zp ≠ Z) :
    (detect_trip_and_record d dev ⟨some Z, some et, some ep⟩ lat lon ts).1
        = ⟨some Zp, some ts, some (lat, lon)⟩
    ∧ (MIN_TRIP_TIME_S ≤ ts - et ∧ MIN_TRIP_DISTANCE_M ≤ d ep (lat, lon) →
        (detect_trip_and_record d dev ⟨some Z, some et, some ep⟩ lat lon ts).2
          = some ⟨dev, et, ts, ep.1, ep.2, lat, lon, d ep (lat, lon), ts - et⟩)
    ∧ (¬(MIN_TRIP_TIME_S ≤ ts - et ∧ MIN_TRIP_DISTANCE_M ≤ d ep (lat, lon)) →
        (detect_trip_and_record d dev ⟨some Z, some et, some ep⟩ lat lon ts).2
          = none) := by
  have hne' : Z ≠ Zp := Ne.symm hne
  refine ⟨?_, ?_, ?_⟩
  · simp [detect_trip_and_record, hz, hne']
  · rintro ⟨h1, h2⟩
    have hdu : ts - et ≠ 0 := by
      have : (0 : ℚ) < ts - et := lt_of_lt_of_le (by norm_num [MIN_TRIP_TIME_S]) h1
      exact ne_of_gt this
    have hdm : d ep (lat, lon) ≠ 0 := by
      have : (0 : ℚ) < d ep (lat, lon) :=
        lt_of_lt_of_le (by norm_num [MIN_TRIP_DISTANCE_M]) h2
      exact ne_of_gt this
    simp [detect_trip_and_record, hz, hne', hdu, hdm, h1, h2]
  · intro h
    simp only [detect_trip_and_record, hz]
    simp [hne']
    intro _ _ h3
    by_contra hlt
    push_neg at hlt
    exact h ⟨h3, hlt⟩

/-- Witness for C1: zone "B" to zone "A" at duration 0, below threshold. -/
theorem trip_on_zone_transition_witness :
    (detect_trip_and_record (fun _ _ => 0) "x" ⟨some "B", some 0, some (0, 0)⟩
        0 0 0).2 = none :=
  (trip_on_zone_transition (fun _ _ => 0) "x" "B" "A" 0 (0, 0) 0 0 0
      (by decide) (by decide)).2.2 (by norm_num)

/-- Claim C3: from `IN_ZONE(Z, et, ep)`, a sample resolving to no zone
clears the whole state to `OUTSIDE` and commits no trip, for every elapsed
duration and distance. -/
theorem exit_to_open_space (d : Point → Point → ℚ) (dev Z : String)
    (et : ℚ) (ep : Point) (lat lon ts : ℚ)
    (hz : resolveZone d lat lon = none) :
    detect_trip_and_record d dev ⟨some Z, some et, some ep⟩ lat lon ts
      = (initState, none) := by
  simp [detect_trip_and_record, hz, initState]

/-- Witness for C3 with a distance function putting the point outside both
fences. -/
theorem exit_to_open_space_witness :
    detect_trip_and_record (fun _ _ => 100) "x" ⟨some "A", some 0, some (0, 0)⟩
        0 0 1000 = (initState, none) :=
  exit_to_open_space (fun _ _ => 100) "x" "A" 0 (0, 0) 0 0 1000 (by decide)

/-- Claim C5: from `OUTSIDE`, a sample resolving to zone `A` enters
`IN_ZONE(A, ts, (lat, lon))` with no trip, and a second sample still
resolving to `A` changes nothing and emits no trip. -/
theorem enter_and_stay (d : Point → Point → ℚ) (dev A : String) (s : DevState)
    (lat lon ts lat2 lon2 ts2 : ℚ)
    (h0 : s.lastZone = none)
    (h1 : resolveZone d lat lon = some A)
    (h2 : resolveZone d lat2 lon2 = some A) :
    detect_trip_and_record d dev s lat lon ts
        = (⟨some A, some ts, some (lat, lon)⟩, none)
    ∧ detect_trip_and_record d dev ⟨some A, some ts, some (lat, lon)⟩
          lat2 lon2 ts2
        = (⟨some A, some ts, some (lat, lon)⟩, none) := by
  constructor
  · simp [detect_trip_and_record, h0, h1]
  · simp [detect_trip_and_record, h2]

/-- Witness for C5 with the always-zero distance function (both samples
resolve to "A"). -/
theorem enter_and_stay_witness :
    detect_trip_and_record (fun _ _ => 0) "x" initState 1 2 5
        = (⟨some "A", some 5, some (1, 2)⟩, none)
    ∧ detect_trip_and_record (fun _ _ => 0) "x" ⟨some "A", some 5, some (1, 2)⟩
          3 4 50
        = (⟨some "A", some 5, some (1, 2)⟩, none) :=
  enter_and_stay (fun _ _ => 0) "x" "A" initState 1 2 5 3 4 50
    rfl (by decide) (by decide)

/-- Claim C4: the per-device state invariant — entry time and entry position
both set or both null, and set exactly when the last zone is non-null —
holds initially, is preserved by every detector call, and therefore holds
after any run from the initial state. -/
theorem device_state_invariant (d : Point → Point → ℚ) (dev : String) :
    stateInv initState
    ∧ (∀ (s : DevState) (lat lon ts : ℚ), stateInv s →
        stateInv (detect_trip_and_record d dev s lat lon ts).1)
    ∧ ∀ samples : List (ℚ × ℚ × ℚ), stateInv (runDetect d dev samples) :=
  ⟨stateInv_init,
   fun s lat lon ts h => stateInv_step d dev s lat lon ts h,
   fun samples => stateInv_foldl d dev samples initState stateInv_init⟩

/-- Witness for C4 at a concrete state and sample. -/
theorem device_state_invariant_witness :
    stateInv (detect_trip_and_record (fun _ _ => 0) "x"
      ⟨some "A", some 0, some (0, 0)⟩ 0 0 7).1 :=
  (device_state_invariant (fun _ _ => 0) "x").2.1
    ⟨some "A", some 0, some (0, 0)⟩ 0 0 7 (by decide)

/-! ## Latest-position query -/

theorem mem_of_mem_latestLoop :
    ∀ (l : List Location) (seen : List String) (x : Location),
      x ∈ latestLoop seen l → x ∈ l
  | [], _, _, h => by simp [latestLoop] at h
  | a :: xs, seen, x, h => by
      rw [latestLoop] at h
      by_cases hs : a.device_id ∈ seen
      · rw [if_pos hs] at h
        exact List.mem_cons_of_mem _ (mem_of_mem_latestLoop xs seen x h)
      · rw [if_neg hs] at h
        rcases List.mem_cons.mp h with rfl | h2
        · exact List.mem_cons_self _ _
        · exact List.mem_cons_of_mem _ (mem_of_mem_latestLoop xs _ x h2)

theorem latestLoop_not_seen :
    ∀ (l : List Location) (seen : List String) (x : Location),
      x ∈ latestLoop seen l → x.device_id ∉ seen
  | [], _, _, h => by simp [latestLoop] at h
  | a :: xs, seen, x, h => by
      rw [latestLoop] at h
      by_cases hs : a.device_id ∈ seen
      · rw [if_pos hs] at h
        exact latestLoop_not_seen xs seen x h
      · rw [if_neg hs] at h
        rcases List.mem_cons.mp h with rfl | h2
        · exact hs
        · have := latestLoop_not_seen xs _ x h2
          exact fun hmem => this (List.mem_cons_of_mem _ hmem)

theorem latestLoop_nodup :
    ∀ (l : List Location) (seen : List String),
      ((latestLoop seen l).map Location.device_id).Nodup
  | [], _ => by simp [latestLoop]
  | a :: xs, seen => by
      rw [latestLoop]
      by_cases hs : a.device_id ∈ seen
      · rw [if_pos hs]
        exact latestLoop_nodup xs seen
      · rw [if_neg hs, List.map_cons, List.nodup_cons]
        refine ⟨?_, latestLoop_nodup xs _⟩
        intro hmem
        rcases List.mem_map.mp hmem with ⟨y, hy, hid⟩
        exact latestLoop_not_seen xs _ y hy (hid ▸ List.mem_cons_self _ _)

theorem latestLoop_covers :
    ∀ (l : List Location) (seen : List String) (y : Location),
      y ∈ l → y.device_id ∉ seen →
        ∃ x ∈ latestLoop seen l, x.device_id = y.device_id
  | [], _, y, hy, _ => by simp at hy
  | a :: xs, seen, y, hy, hns => by
      rw [latestLoop]
      rcases List.mem_cons.mp hy with rfl | h2
      · rw [if_neg hns]
        exact ⟨y, List.mem_cons_self _ _, rfl⟩
      · by_cases hid : y.device_id = a.device_id
        · rw [if_neg (hid ▸ hns)]
          exact ⟨a, List.mem_cons_self _ _, hid.symm⟩
        · by_cases hs : a.device_id ∈ seen
          · rw [if_pos hs]
            exact latestLoop_covers xs seen y h2 hns
          · rw [if_neg hs]
            have hns2 : y.device_id ∉ a.device_id :: seen := by
              simp [hid, hns]
            rcases latestLoop_covers xs _ y h2 hns2 with ⟨x, hx1, hx2⟩
            exact ⟨x, List.mem_cons_of_mem _ hx1, hx2⟩

theorem latestLoop_max :
    ∀ (l : List Location) (seen : List String), l.Sorted tsDesc →
      ∀ x ∈ latestLoop seen l, ∀ y ∈ l, y.device_id = x.device_id →
        y.timestamp ≤ x.timestamp
  | [], _, _, x, hx, _, _, _ => by simp [latestLoop] at hx
  | a :: xs, seen, hsort, x, hx, y, hy, hid => by
      rcases List.sorted_cons.mp hsort with ⟨ha, hxs⟩
      rw [latestLoop] at hx
      by_cases hs : a.device_id ∈ seen
      · rw [if_pos hs] at hx
        rcases List.mem_cons.mp hy with rfl | hy2
        · exact absurd (hid ▸ hs) (latestLoop_not_seen xs seen x hx)
        · exact latestLoop_max xs seen hxs x hx y hy2 hid
      · rw [if_neg hs] at hx
        rcases List.mem_cons.mp hx with rfl | hx2
        · rcases List.mem_cons.mp hy with rfl | hy2
          · exact le_refl _
          · exact ha y hy2
        · have hxna : x.device_id ∉ a.device_id :: seen :=
            latestLoop_not_seen xs _ x hx2
          rcases List.mem_cons.mp hy with rfl | hy2
          · exact absurd (hid ▸ List.mem_cons_self _ _) (hid ▸ hxna)
          · exact latestLoop_max xs _ hxs x hx2 y hy2 hid

/-- Claim C6: the latest-positions query returns device-id-distinct rows,
every returned row is a stored sample, every device that ever reported is
represented, and each returned row's timestamp is maximal among that
device's samples. -/
theorem latest_per_device_correct (rows : List Location) :
    ((api_devices_latest rows).map Location.device_id).Nodup
    ∧ (∀ r ∈ api_devices_latest rows, r ∈ rows)
    ∧ (∀ y ∈ rows, ∃ r ∈ api_devices_latest rows, r.device_id = y.device_id)
    ∧ (∀ r ∈ api_devices_latest rows, ∀ y ∈ rows,
        y.device_id = r.device_id → y.timestamp ≤ r.timestamp) := by
  have hperm := List.perm_insertionSort tsDesc rows
  have hsort := List.sorted_insertionSort tsDesc rows
  refine ⟨latestLoop_nodup _ _, ?_, ?_, ?_⟩
  · intro r hr
    exact hperm.mem_iff.mp (mem_of_mem_latestLoop _ _ r hr)
  · intro y hy
    exact latestLoop_covers _ [] y (hperm.mem_iff.mpr hy) (by simp)
  · intro r hr y hy hid
    exact latestLoop_max _ [] hsort r hr y (hperm.mem_iff.mpr hy) hid

/-- Witness for C6: on a concrete store, the returned "d1" row dominates the
other "d1" sample's timestamp. -/
theorem latest_per_device_correct_witness :
    (⟨"d1", 0, 0, 0, 5⟩ : Location).timestamp
      ≤ (⟨"d1", 2, 2, 0, 9⟩ : Location).timestamp :=
  (latest_per_device_correct
      [⟨"d1", 0, 0, 0, 5⟩, ⟨"d2", 1, 1, 0, 3⟩, ⟨"d1", 2, 2, 0, 9⟩]).2.2.2
    ⟨"d1", 2, 2, 0, 9⟩ (by decide) ⟨"d1", 0, 0, 0, 5⟩ (by decide) rfl

/-! ## Trip summary query -/

theorem sum_map_one {α : Type} (l : List α) :
    (l.map fun _ => (1 : ℕ)).sum = l.length := by
  induction l with
  | nil => rfl
  | cons a l ih => simp [ih, Nat.add_comm]

theorem sum_filter_mem_cons {α β M : Type} [DecidableEq β] [AddCommMonoid M]
    (f : α → β) (g : α → M) (d : β) (ds : List β) (hd : d ∉ ds) (l : List α) :
    ((l.filter fun a => f a ∈ d :: ds).map g).sum
      = ((l.filter fun a => f a = d).map g).sum
        + ((l.filter fun a => f a ∈ ds).map g).sum := by
  induction l with
  | nil => simp
  | cons a l ih =>
      rw [List.filter_cons, List.filter_cons, List.filter_cons]
      simp only [decide_eq_true_eq]
      by_cases h1 : f a = d
      · have h2 : f a ∉ ds := h1 ▸ hd
        rw [if_pos (List.mem_cons.mpr (Or.inl h1)), if_pos h1, if_neg h2,
          List.map_cons, List.sum_cons, List.map_cons, List.sum_cons, ih,
          add_assoc]
      · by_cases h2 : f a ∈ ds
        · rw [if_pos (List.mem_cons.mpr (Or.inr h2)), if_neg h1, if_pos h2,
            List.map_cons, List.sum_cons, List.map_cons, List.sum_cons, ih,
            add_left_comm]
        · have hne : f a ∉ d :: ds := fun hmem =>
            (List.mem_cons.mp hmem).elim h1 h2
          rw [if_neg hne, if_neg h1, if_neg h2, ih]

theorem sum_filter_groups {α β M : Type} [DecidableEq β] [AddCommMonoid M]
    (f : α → β) (g : α → M) :
    ∀ ds : List β, ds.Nodup → ∀ l : List α,
      (ds.map fun d => ((l.filter fun a => f a = d).map g).sum).sum
        = ((l.filter fun a => f a ∈ ds).map g).sum
  | [], _, l => by simp
  | d :: ds, hnd, l => by
      rw [List.map_cons, List.sum_cons,
        sum_filter_groups f g ds (List.nodup_cons.mp hnd).2 l,
        sum_filter_mem_cons f g d ds (List.nodup_cons.mp hnd).1 l]

theorem filter_mem_eq_self {α β : Type} [DecidableEq β] (f : α → β)
    (ds : List β) (l : List α) (h : ∀ a ∈ l, f a ∈ ds) :
    (l.filter fun a => f a ∈ ds) = l :=
  List.filter_eq_self.mpr fun a ha => by simpa using h a ha

theorem daysList_nodup (trips : List Trip) :
    (List.insertionSort (· ≤ ·) (trips.map dayOf).dedup).Nodup :=
  (List.perm_insertionSort _ _).nodup_iff.mpr (List.nodup_dedup _)

theorem daysList_covers (trips : List Trip) :
    ∀ t ∈ trips, dayOf t ∈ List.insertionSort (· ≤ ·) (trips.map dayOf).dedup := by
  intro t ht
  simp only [List.mem_insertionSort, List.mem_dedup]
  exact List.mem_map_of_mem dayOf ht

theorem grouped_counts_sum (trips : List Trip) :
    ((tripsGroupedByDay trips).map fun r => r.2.1).sum = trips.length := by
  unfold tripsGroupedByDay
  rw [List.map_map]
  have h1 : ((fun r : ℤ × ℕ × ℚ => r.2.1) ∘ fun day =>
      (day, (trips.filter fun t => dayOf t = day).length,
       ((trips.filter fun t => dayOf t = day).map Trip.distance_m).sum))
      = fun day => ((trips.filter fun t => dayOf t = day).map fun _ => (1 : ℕ)).sum := by
    funext day
    exact (sum_map_one _).symm
  rw [h1, sum_filter_groups dayOf (fun _ => (1 : ℕ)) _ (daysList_nodup trips) trips,
    filter_mem_eq_self _ _ _ (daysList_covers trips), sum_map_one]

theorem grouped_distance_sum (trips : List Trip) :
    ((tripsGroupedByDay trips).map fun r => r.2.2).sum
      = (trips.map Trip.distance_m).sum := by
  unfold tripsGroupedByDay
  rw [List.map_map]
  have h1 : ((fun r : ℤ × ℕ × ℚ => r.2.2) ∘ fun day =>
      (day, (trips.filter fun t => dayOf t = day).length,
       ((trips.filter fun t => dayOf t = day).map Trip.distance_m).sum))
      = fun day => ((trips.filter fun t => dayOf t = day).map Trip.distance_m).sum :=
    rfl
  rw [h1, sum_filter_groups dayOf Trip.distance_m _ (daysList_nodup trips) trips,
    filter_mem_eq_self _ _ _ (daysList_covers trips)]

/-- Claim C7: the summary's `total_trips` is the sum of the per-day counts
(equivalently the number of stored trips), `total_km` is the sum of the
per-day meter totals divided by 1000, and `co2_saved_kg` is exactly
`total_km` times the emission factor 0.20; the query is a pure function of
the trip store. -/
theorem trips_summary_correct (trips : List Trip) :
    (api_trips_summary trips).total_trips
        = ((tripsGroupedByDay trips).map fun r => r.2.1).sum
    ∧ (api_trips_summary trips).total_trips = trips.length
    ∧ (api_trips_summary trips).total_km
        = ((tripsGroupedByDay trips).map fun r => r.2.2).sum / 1000
    ∧ (api_trips_summary trips).total_km
        = (trips.map Trip.distance_m).sum / 1000
    ∧ (api_trips_summary trips).co2_saved_kg
        = (api_trips_summary trips).total_km * EMISSION_FACTOR_KG_PER_KM :=
  ⟨rfl, grouped_counts_sum trips, rfl,
   by
    show ((tripsGroupedByDay trips).map fun r => r.2.2).sum / 1000
        = (trips.map Trip.distance_m).sum / 1000
    rw [grouped_distance_sum trips],
   rfl⟩

/-! ## Ingestion endpoint -/

/-- A string-float parser on which `float` always raises, for concrete
instantiations. -/
def fpNone : String → Option ℚ := fun _ => none

/-- A payload whose latitude is the JSON number 0 under the accepted alias
`lat`: float-parseable, but falsy for the Python `or` chain. -/
def latZeroPayload : List (String × PyVal) :=
  [("api_key", .str "k"), ("lat", .num 0), ("lon", .num 77)]

/-- Claim C2 counterexample: an authorized payload carrying the
float-parseable latitude value 0 under alias `lat` is nevertheless rejected
with a validation failure, because `data.get("lat") or data.get("latitude")`
skips the falsy value 0 and resolves to `None`. -/
theorem lat_zero_rejected :
    api_location fpNone (fun _ => 0) 0 "k" none latZeroPayload
        = IngestResult.validationError
    ∧ pyFloat fpNone (dictGet latZeroPayload "lat") = some 0 :=
  ⟨rfl, rfl⟩

/-- Claim C2 (amended): an authorized request is rejected with a validation
failure iff the alias-resolved latitude or longitude — the Python
`data.get("lat") or data.get("latitude")` chain, which skips falsy values —
is not float-parseable; payloads whose resolved coordinate values parse are
accepted past validation.  A parseable but falsy coordinate (numeric 0 or
an empty string) present under only its first alias is thus rejected. -/
theorem validation_error_iff (fp : String → Option ℚ) (parseTs : PyVal → ℚ)
    (now : ℚ) (apiKeyCfg : String) (headerKey : Option String)
    (data : List (String × PyVal))
    (hauth : ¬(apiKeyCfg ≠ "" ∧
      pyOr (dictGet data "api_key") (headerKey.elim PyVal.null PyVal.str)
        ≠ PyVal.str apiKeyCfg)) :
    api_location fp parseTs now apiKeyCfg headerKey data
        = IngestResult.validationError
      ↔ (pyFloat fp (pyOr (dictGet data "lat") (dictGet data "latitude")) = none
        ∨ pyFloat fp (pyOr (dictGet data "lon") (dictGet data "longitude")) = none) := by
  simp only [api_location]
  rw [if_neg hauth]
  rcases hlat : pyFloat fp (pyOr (dictGet data "lat") (dictGet data "latitude"))
    with _ | lat
  · simp
  · rcases hlon : pyFloat fp (pyOr (dictGet data "lon") (dictGet data "longitude"))
      with _ | lon
    · simp
    · rcases hsp : pyFloat fp (pyOr (pyOr (dictGet data "speed_kmh")
          (dictGet data "speed")) (PyVal.num 0)) with _ | sp <;> simp [hsp]

/-- Witness for the amended C2: a payload whose latitude string does not
parse is rejected. -/
theorem validation_error_iff_witness :
    api_location fpNone (fun _ => 0) 0 "k" none
        [("api_key", .str "k"), ("lat", .str "x"), ("lon", .num 77)]
      = IngestResult.validationError :=
  (validation_error_iff fpNone (fun _ => 0) 0 "k" none
      [("api_key", .str "k"), ("lat", .str "x"), ("lon", .num 77)]
      (by decide)).mpr (Or.inl rfl)

/-- A payload carrying a parseable truthy `speed_kmh` and a truthy
non-parseable `speed`: the `or` chain picks the first, so no exception. -/
def speedAliasPayload : List (String × PyVal) :=
  [("api_key", .str "k"), ("lat", .num 12), ("lon", .num 77),
   ("speed_kmh", .num 5), ("speed", .str "abc")]

/-- Claim C10 counterexample: this authorized, valid-coordinate payload
contains a speed field under the accepted alias `speed` whose value is
truthy and not float-parseable, yet the handler does not raise — it
completes the request and writes the rows, using `speed_kmh`. -/
theorem speed_alias_not_exception :
    api_location fpNone (fun _ => 0) 0 "k" none speedAliasPayload
        = IngestResult.ok PyVal.null 12 77 5 0
    ∧ (dictGet speedAliasPayload "speed").truthy = true
    ∧ pyFloat fpNone (dictGet speedAliasPayload "speed") = none :=
  ⟨rfl, rfl, rfl⟩

/-- Claim C10 (amended): for an authorized request whose coordinates
validate, the handler raises an uncaught exception — failing the request
before any device or location row is written, instead of degrading to the
documented speed default 0 — iff the alias-resolved speed value
(`speed_kmh` if truthy, else `speed` if truthy, else the literal default 0)
is not float-parseable. -/
theorem speed_exception_iff (fp : String → Option ℚ) (parseTs : PyVal → ℚ)
    (now : ℚ) (apiKeyCfg : String) (headerKey : Option String)
    (data : List (String × PyVal)) (lat lon : ℚ)
    (hauth : ¬(apiKeyCfg ≠ "" ∧
      pyOr (dictGet data "api_key") (headerKey.elim PyVal.null PyVal.str)
        ≠ PyVal.str apiKeyCfg))
    (hlat : pyFloat fp (pyOr (dictGet data "lat") (dictGet data "latitude"))
        = some lat)
    (hlon : pyFloat fp (pyOr (dictGet data "lon") (dictGet data "longitude"))
        = some lon) :
    api_location fp parseTs now apiKeyCfg headerKey data
        = IngestResult.exception
      ↔ pyFloat fp (pyOr (pyOr (dictGet data "speed_kmh")
          (dictGet data "speed")) (PyVal.num 0)) = none := by
  simp only [api_location]
  rw [if_neg hauth, hlat, hlon]
  rcases hsp : pyFloat fp (pyOr (pyOr (dictGet data "speed_kmh")
      (dictGet data "speed")) (PyVal.num 0)) with _ | sp <;> simp [hsp]

/-- Witness for the amended C10: with `speed` the only speed field, truthy
and unparseable, the request raises. -/
theorem speed_exception_iff_witness :
    api_location fpNone (fun _ => 0) 0 "k" none
        [("api_key", .str "k"), ("lat", .num 12), ("lon", .num 77),
         ("speed", .str "abc")]
      = IngestResult.exception :=
  (speed_exception_iff fpNone (fun _ => 0) 0 "k" none
      [("api_key", .str "k"), ("lat", .num 12), ("lon", .num 77),
       ("speed", .str "abc")] 12 77 (by decide) rfl rfl).mpr rfl

end EBuggy
